import Mathlib

/-!
Verification of the query-dispatch and result-normalization engine of the
oracle-mcp-server repository (`mcp_server.py`, class `OracleMCPServer`).

The Python source is shallowly embedded: pure string manipulation (statement
building, row rendering, value formatting) is translated directly; the
database is an oracle environment (`Env`) supplying the outcomes of
`cursor.execute` / `fetchall`; Python exceptions are `Except PyError`;
resource state that the claims are about (open statement handles, rows of
`PLAN_TABLE`) is threaded explicitly.
-/

/-- Python `str.strip` whitespace set (space, tab, newline, carriage return,
vertical tab, form feed). -/
def isPySpace (c : Char) : Bool :=
  c = ' ' || c = '\t' || c = '\n' || c = '\r' || c = '\x0b' || c = '\x0c'

/-- Embedding of Python `str.strip()`: drop leading and trailing whitespace. -/
def pyStrip (s : String) : String :=
  ⟨((s.data.dropWhile isPySpace).reverse.dropWhile isPySpace).reverse⟩

/-- Embedding of Python `str.upper()` (character-wise upper-casing; agrees with
Python on the ASCII identifiers the server handles). -/
def pyUpper (s : String) : String := ⟨s.data.map Char.toUpper⟩

/-- Embedding of Python `str.startswith(pre)`. -/
def pyStartswith (s pre : String) : Bool := pre.data.isPrefixOf s.data

/-- Embedding of Python `sep.join(items)`. -/
def joinSep (sep : String) : List String → String
  | [] => ""
  | [x] => x
  | x :: y :: xs => x ++ sep ++ joinSep sep (y :: xs)

/-- Embedding of Python `"-" * n`. -/
def dashLine (n : Nat) : String := ⟨List.replicate n '-'⟩

/-- Embedding of Python `len` on a string (number of characters). -/
def pyLen (s : String) : Nat := s.data.length

/-- Substring test (used only in theorem statements, to assert that a rendered
text does or does not contain a given phrase). -/
def containsSub (s pat : String) : Bool :=
  (List.range (s.data.length + 1)).any (fun i => pat.data.isPrefixOf (s.data.drop i))

/-- Two-digit zero padding, as produced by `strftime` fields `%m %d %H %M %S`. -/
def pad2 (n : Nat) : String := if n < 10 then "0" ++ toString n else toString n

/-- Four-digit zero padding, as produced by the `strftime` field `%Y`. -/
def pad4 (n : Nat) : String :=
  if n < 10 then "000" ++ toString n
  else if n < 100 then "00" ++ toString n
  else if n < 1000 then "0" ++ toString n
  else toString n

/-- A value in a fetched row: SQL NULL (Python `None`), a `datetime` value
(year, month, day, hour, minute, second), an integer, or any other value
represented by its Python `str()` image. -/
inductive SqlValue where
  | null : SqlValue
  | timestamp (y mo d h mi s : Nat) : SqlValue
  | int (n : Int) : SqlValue
  | str (s : String) : SqlValue
deriving DecidableEq, Repr

/-- Per-value formatting of `_execute_sql` (mcp_server.py lines 289-295):
`None` renders as `"NULL"`, a `datetime` as `strftime("%Y-%m-%d %H:%M:%S")`,
everything else as its `str()` image. -/
def formatValue : SqlValue → String
  | .null => "NULL"
  | .timestamp y mo d h mi s =>
      pad4 y ++ "-" ++ pad2 mo ++ "-" ++ pad2 d ++ " " ++
      pad2 h ++ ":" ++ pad2 mi ++ ":" ++ pad2 s
  | .int n => toString n
  | .str s => s

/-- The `TextContent(type="text", text=...)` payload returned by every tool
handler; only the text matters to the embedding. -/
structure TextContent where
  text : String
deriving DecidableEq, Repr

/-- Python exceptions that can cross the handler/dispatcher boundary:
`KeyError(key)` from `arguments[key]` on a missing required argument, and a
database-layer exception carrying its `str()` message. -/
inductive PyError where
  | keyError (key : String) : PyError
  | dbError (msg : String) : PyError
deriving DecidableEq, Repr

/-- Python `str(e)`: a `KeyError` prints as the quoted key. -/
def pyErrStr : PyError → String
  | .keyError k => "\x27" ++ k ++ "\x27"
  | .dbError m => m

/-- Read/mutation classification of `_execute_sql` (line 267):
`query.strip().upper().startswith(("SELECT", "WITH"))`. -/
def isReadQuery (query : String) : Bool :=
  pyStartswith (pyUpper (pyStrip query)) "SELECT" ||
  pyStartswith (pyUpper (pyStrip query)) "WITH"

/-- Row truncation of `_execute_sql` (lines 273-275): if more rows were
fetched than `max_results`, keep only the first `max_results`. -/
def keptRows (rows : List (List SqlValue)) (max_results : Nat) : List (List SqlValue) :=
  if rows.length > max_results then rows.take max_results else rows

/-- Truncation notice of `_execute_sql` (lines 276-278): non-empty exactly
when the fetched row count exceeds `max_results`. -/
def truncatedMsg (rows : List (List SqlValue)) (max_results : Nat) : String :=
  if rows.length > max_results then
    "\n\n(Results truncated to " ++ toString max_results ++ " rows)"
  else ""

/-- One rendered data line of `_execute_sql` (lines 287-296): the formatted
values joined by `" | "`, plus a newline. -/
def rowLine (row : List SqlValue) : String :=
  joinSep " | " (row.map formatValue) ++ "\n"

/-- The block of rendered data lines, one per kept row. -/
def rowsBody (rows : List (List SqlValue)) : String :=
  String.join (rows.map rowLine)

/-- Tabular rendering of a read result in `_execute_sql` (lines 272-300):
truncate to `max_results`, then either the fixed no-rows message or
header line, column line, separator of the same length, data lines and the
truncation notice. -/
def renderRead (columns : List String) (rows : List (List SqlValue)) (max_results : Nat) : String :=
  let rows2 := keptRows rows max_results
  let truncated_msg := truncatedMsg rows max_results
  if rows2.isEmpty then "Query executed successfully. No rows returned."
  else
    "Query executed successfully. Found " ++ toString rows2.length ++ " rows.\n\n"
    ++ joinSep " | " columns ++ "\n"
    ++ dashLine (pyLen (joinSep " | " columns)) ++ "\n"
    ++ rowsBody rows2
    ++ truncated_msg

/-- One row of `USER_TAB_COLUMNS` / `ALL_TAB_COLUMNS` as fetched by
`_describe_table`: numeric fields and the default are `NULL`-able. -/
structure DescCol where
  col_name : String
  data_type : String
  data_length : Option Nat := none
  data_precision : Option Nat := none
  data_scale : Option Nat := none
  nullable : String := "Y"
  data_default : Option String := none
deriving DecidableEq, Repr

/-- Python truthiness of a numeric column value: `None` and `0` are falsy. -/
def natTruthy : Option Nat → Bool
  | none => false
  | some n => !(n == 0)

/-- Python truthiness of a string-or-`None` value. -/
def strTruthy : Option String → Bool
  | none => false
  | some s => !(s == "")

/-- Embedding of the f-string fragment `{x or ''}` for a numeric field. -/
def optNatOrEmpty (o : Option Nat) : String :=
  if natTruthy o then toString (o.getD 0) else ""

/-- Data-type column of `_describe_table` (lines 357-363): precision/scale in
parentheses when both are truthy, else length for the character types, else
the bare type name. -/
def typeInfo (c : DescCol) : String :=
  if natTruthy c.data_precision && natTruthy c.data_scale then
    c.data_type ++ "(" ++ toString (c.data_precision.getD 0) ++ ","
      ++ toString (c.data_scale.getD 0) ++ ")"
  else if natTruthy c.data_length
      && (c.data_type == "VARCHAR2" || c.data_type == "CHAR"
          || c.data_type == "NVARCHAR2" || c.data_type == "NCHAR") then
    c.data_type ++ "(" ++ toString (c.data_length.getD 0) ++ ")"
  else c.data_type

/-- Default column of `_describe_table` (line 365): `str(default) if default
else ""`. -/
def defaultVal (c : DescCol) : String :=
  if strTruthy c.data_default then c.data_default.getD "" else ""

/-- Table-description rendering of `_describe_table` (lines 350-366). -/
def describeRender (table_name : String) (cols : List DescCol) : String :=
  "Table: " ++ table_name ++ "\n\n"
  ++ "Column Name | Data Type | Length | Precision | Scale | Nullable | Default\n"
  ++ dashLine 80 ++ "\n"
  ++ String.join (cols.map (fun c =>
      c.col_name ++ " | " ++ typeInfo c ++ " | " ++ optNatOrEmpty c.data_length
      ++ " | " ++ optNatOrEmpty c.data_precision ++ " | " ++ optNatOrEmpty c.data_scale
      ++ " | " ++ c.nullable ++ " | " ++ defaultVal c ++ "\n"))

/-- One row of the foreign-key join fetched by `_get_table_relationships`. -/
structure RelRow where
  constraint_name : String
  column : String
  ref_table : String
  ref_column : String
deriving DecidableEq, Repr

/-- Relationship rendering of `_get_table_relationships` (lines 459-465). -/
def relationshipsRender (table_name : String) (rels : List RelRow) : String :=
  "Foreign Key Relationships for " ++ table_name ++ ":\n\n"
  ++ "Constraint Name | Column | Referenced Table | Referenced Column\n"
  ++ dashLine 70 ++ "\n"
  ++ String.join (rels.map (fun r =>
      r.constraint_name ++ " | " ++ r.column ++ " | " ++ r.ref_table
      ++ " | " ++ r.ref_column ++ "\n"))

/-- One row returned by the hierarchical plan read-back in
`_analyze_query_plan`: the indented plan line and the `NULL`-able cost and
cardinality. -/
structure PlanLine where
  plan_line : String
  cost : Option Nat := none
  cardinality : Option Nat := none
deriving DecidableEq, Repr

/-- Plan rendering of `_analyze_query_plan` (lines 508-514). -/
def planRender (query : String) (rows : List PlanLine) : String :=
  "Execution Plan for Query:\n" ++ query ++ "\n\n"
  ++ "Operation | Cost | Cardinality\n"
  ++ dashLine 50 ++ "\n"
  ++ String.join (rows.map (fun r =>
      r.plan_line ++ " | " ++ optNatOrEmpty r.cost ++ " | "
      ++ optNatOrEmpty r.cardinality ++ "\n"))

/-- Oracle environment for one tool call: configuration plus the outcomes the
database produces for the statements the handler issues. `connectFails` /
`execFails` / `explainFails` are `some msg` when the corresponding call raises
an exception with that `str()` image. `planInserted` is the number of rows a
successful `EXPLAIN PLAN` registers in `PLAN_TABLE` under the generated
statement identifier; `planReadBack` is the result of the hierarchical
read-back; `now` is the `%Y%m%d_%H%M%S` timestamp used for the identifier.
`max_results` models `config["mcp"].get("max_results", 1000)`. -/
structure Env where
  connectFails : Option String := none
  execFails : Option String := none
  columns : List String := []
  rows : List (List SqlValue) := []
  rowcount : Nat := 0
  max_results : Option Nat := none
  describeRows : List DescCol := []
  tables : List String := []
  relRows : List RelRow := []
  explainFails : Option String := none
  planReadBack : List PlanLine := []
  planInserted : Nat := 0
  planTable : List (String × Nat) := []
  now : String := ""

/-- Argument bag of a tool call; `none` is an absent key. -/
structure Args where
  query : Option String := none
  params : Option (List String) := none
  table_name : Option String := none
  schema : Option String := none
  pattern : Option String := none

/-- Body of `_execute_sql` (lines 257-312), i.e. its `try` block with the
statement handle threaded explicitly. The returned `Nat` is the number of
statement handles still open when the handler returns: the handle is opened
(line 258) and closed only at line 307, which the exception path (lines
310-312) never reaches. -/
def execute_sql_body (env : Env) (query : String) (_params : List String) : String × Nat :=
  match env.execFails with
  | some m => ("SQL Error: " ++ m, 1)
  | none =>
    if isReadQuery query then
      (renderRead env.columns env.rows (env.max_results.getD 1000), 0)
    else
      ("Query executed successfully. " ++ toString env.rowcount ++ " rows affected.", 0)

/-- Catalog statement built by `_describe_table` when no (non-empty) schema is
given (lines 335-341): caller's own objects, filtered by table name only. -/
def describe_user_query : String :=
  "\n                SELECT COLUMN_NAME, DATA_TYPE, DATA_LENGTH, DATA_PRECISION, \n                       DATA_SCALE, NULLABLE, DATA_DEFAULT\n                FROM USER_TAB_COLUMNS \n                WHERE TABLE_NAME = :table_name\n                ORDER BY COLUMN_ID\n                "

/-- Catalog statement built by `_describe_table` when a schema is given
(lines 326-332): all accessible objects, filtered by table name and owner. -/
def describe_all_query : String :=
  "\n                SELECT COLUMN_NAME, DATA_TYPE, DATA_LENGTH, DATA_PRECISION, \n                       DATA_SCALE, NULLABLE, DATA_DEFAULT\n                FROM ALL_TAB_COLUMNS \n                WHERE TABLE_NAME = :table_name AND OWNER = :schema\n                ORDER BY COLUMN_ID\n                "

/-- Statement builder of `_describe_table` (lines 318-342): upper-case the
table name and the schema (absent schema defaults to `""`), then branch on the
truthiness of the schema string. Returns the statement text and the bound
parameters in order. -/
def describe_table_stmt (table_name0 : String) (schema0 : Option String) :
    String × List String :=
  let table_name := pyUpper table_name0
  let schema := pyUpper (schema0.getD "")
  if schema ≠ "" then (describe_all_query, [table_name, schema])
  else (describe_user_query, [table_name])

/-- Statement builder of `_list_tables` (lines 379-396): base statement from
`USER_TABLES` or `ALL_TABLES` filtered by owner, an appended `LIKE` filter
when a (truthy) pattern is given, and a final `ORDER BY TABLE_NAME`. -/
def list_tables_stmt (schema0 pattern0 : Option String) : String × List String :=
  let schema := pyUpper (schema0.getD "")
  let pattern := pattern0.getD ""
  let base :=
    if schema ≠ "" then
      ("SELECT TABLE_NAME FROM ALL_TABLES WHERE OWNER = :schema", [schema])
    else
      ("SELECT TABLE_NAME FROM USER_TABLES", ([] : List String))
  let withPattern :=
    if pattern ≠ "" then
      (base.1 ++ " AND TABLE_NAME LIKE :pattern", base.2 ++ ["%" ++ pyUpper pattern ++ "%"])
    else base
  (withPattern.1 ++ " ORDER BY TABLE_NAME", withPattern.2)

/-- Foreign-key statement built by `_get_table_relationships` when no
(non-empty) schema is given (lines 441-451). -/
def relationships_user_query : String :=
  "\n                SELECT a.CONSTRAINT_NAME, a.COLUMN_NAME, c_pk.TABLE_NAME as REFERENCED_TABLE,\n                       a_pk.COLUMN_NAME as REFERENCED_COLUMN\n                FROM USER_CONS_COLUMNS a\n                JOIN USER_CONSTRAINTS c ON a.CONSTRAINT_NAME = c.CONSTRAINT_NAME\n                JOIN USER_CONSTRAINTS c_pk ON c.R_CONSTRAINT_NAME = c_pk.CONSTRAINT_NAME\n                JOIN USER_CONS_COLUMNS a_pk ON c_pk.CONSTRAINT_NAME = a_pk.CONSTRAINT_NAME\n                WHERE c.CONSTRAINT_TYPE = \x27R\x27\n                AND a.TABLE_NAME = :table_name\n                ORDER BY a.CONSTRAINT_NAME, a.POSITION\n                "

/-- Foreign-key statement built by `_get_table_relationships` when a schema is
given (lines 427-438). -/
def relationships_all_query : String :=
  "\n                SELECT a.CONSTRAINT_NAME, a.COLUMN_NAME, c_pk.TABLE_NAME as REFERENCED_TABLE,\n                       a_pk.COLUMN_NAME as REFERENCED_COLUMN\n                FROM ALL_CONS_COLUMNS a\n                JOIN ALL_CONSTRAINTS c ON a.CONSTRAINT_NAME = c.CONSTRAINT_NAME\n                JOIN ALL_CONSTRAINTS c_pk ON c.R_CONSTRAINT_NAME = c_pk.CONSTRAINT_NAME\n                JOIN ALL_CONS_COLUMNS a_pk ON c_pk.CONSTRAINT_NAME = a_pk.CONSTRAINT_NAME\n                WHERE c.CONSTRAINT_TYPE = \x27R\x27\n                AND a.TABLE_NAME = :table_name\n                AND a.OWNER = :schema\n                ORDER BY a.CONSTRAINT_NAME, a.POSITION\n                "

/-- Statement builder of `_get_table_relationships` (lines 419-452): same
upper-casing and schema-truthiness branching as `_describe_table`. -/
def get_table_relationships_stmt (table_name0 : String) (schema0 : Option String) :
    String × List String :=
  let table_name := pyUpper table_name0
  let schema := pyUpper (schema0.getD "")
  if schema ≠ "" then (relationships_all_query, [table_name, schema])
  else (relationships_user_query, [table_name])

/-- Hierarchical plan read-back statement of `_analyze_query_plan`
(lines 491-501). -/
def plan_query : String :=
  "\n            SELECT LPAD(\x27 \x27, 2 * LEVEL) || OPERATION || \x27 \x27 || \n                   NVL(OPTIONS, \x27\x27) || \x27 \x27 || \n                   NVL(OBJECT_NAME, \x27\x27) as PLAN_LINE,\n                   COST, CARDINALITY\n            FROM PLAN_TABLE \n            WHERE STATEMENT_ID = :stmt_id\n            START WITH ID = 0 \n            CONNECT BY PRIOR ID = PARENT_ID \n            ORDER BY ID\n            "

/-- Body of `_analyze_query_plan` (lines 480-525), its `try` block, with the
rows of `PLAN_TABLE` threaded explicitly as a list of
(statement identifier, row index) pairs. A successful `EXPLAIN PLAN`
(line 488) registers `env.planInserted` rows under the generated identifier
`MCP_PLAN_<now>`; the `DELETE` cleanup (line 517) is reached only on the
straight-line path below the non-empty check of line 505. -/
def analyze_query_plan_body (env : Env) (query : String)
    (plan_table : List (String × Nat)) : List TextContent × List (String × Nat) :=
  let stmt_id := "MCP_PLAN_" ++ env.now
  let _explain_query := "EXPLAIN PLAN SET STATEMENT_ID = \x27" ++ stmt_id ++ "\x27 FOR " ++ query
  match env.explainFails with
  | some m => ([⟨"Error analyzing plan: " ++ m⟩], plan_table)
  | none =>
    let pt1 := plan_table ++ (List.range env.planInserted).map (fun i => (stmt_id, i))
    let plan_rows := env.planReadBack
    if plan_rows.isEmpty then
      ([⟨"No execution plan generated"⟩], pt1)
    else
      ([⟨planRender query plan_rows⟩], pt1.filter (fun r => r.1 ≠ stmt_id))

/-- `_connect_database` (lines 221-248) as seen from a handler: either a
no-op or a raised exception. -/
def connectDatabase (env : Env) : Except PyError Unit :=
  match env.connectFails with
  | some m => .error (.dbError m)
  | none => .ok ()

/-- Result portion of `_describe_table` (lines 321-373), its `try` block:
execution failure is caught locally; an empty fetch yields the not-found
message; otherwise the table description is rendered. -/
def describe_table_result (env : Env) (table_name0 : String) (schema0 : Option String) :
    List TextContent :=
  let table_name := pyUpper table_name0
  let _stmt := describe_table_stmt table_name0 schema0
  match env.execFails with
  | some m => [⟨"Error describing table: " ++ m⟩]
  | none =>
    let columns := env.describeRows
    if columns.isEmpty then [⟨"Table " ++ table_name ++ " not found"⟩]
    else [⟨describeRender table_name columns⟩]

/-- Result portion of `_list_tables` (lines 382-413), its `try` block. -/
def list_tables_result (env : Env) (schema0 pattern0 : Option String) :
    List TextContent :=
  let _stmt := list_tables_stmt schema0 pattern0
  match env.execFails with
  | some m => [⟨"Error listing tables: " ++ m⟩]
  | none =>
    let tables := env.tables
    if tables.isEmpty then [⟨"No tables found"⟩]
    else [⟨"Found " ++ toString tables.length ++ " tables:\n\n"
            ++ String.join (tables.map (fun t => "- " ++ t ++ "\n"))⟩]

/-- Result portion of `_get_table_relationships` (lines 422-472), its `try`
block. -/
def get_table_relationships_result (env : Env) (table_name0 : String)
    (schema0 : Option String) : List TextContent :=
  let table_name := pyUpper table_name0
  let _stmt := get_table_relationships_stmt table_name0 schema0
  match env.execFails with
  | some m => [⟨"Error getting relationships: " ++ m⟩]
  | none =>
    let relationships := env.relRows
    if relationships.isEmpty then
      [⟨"No foreign key relationships found for table " ++ table_name⟩]
    else [⟨relationshipsRender table_name relationships⟩]

/-- Handler `_execute_sql` (lines 250-312): connect, read the required
`query` argument (a missing key raises `KeyError`, line 254, before the `try`
block), then run the body. -/
def _execute_sql (env : Env) (args : Args) : Except PyError (List TextContent) :=
  match connectDatabase env with
  | .error e => .error e
  | .ok _ =>
    match args.query with
    | none => .error (.keyError "query")
    | some query => .ok [⟨(execute_sql_body env query (args.params.getD [])).1⟩]

/-- Handler `_describe_table` (lines 314-373). -/
def _describe_table (env : Env) (args : Args) : Except PyError (List TextContent) :=
  match connectDatabase env with
  | .error e => .error e
  | .ok _ =>
    match args.table_name with
    | none => .error (.keyError "table_name")
    | some table_name => .ok (describe_table_result env table_name args.schema)

/-- Handler `_list_tables` (lines 375-413); both arguments are optional. -/
def _list_tables (env : Env) (args : Args) : Except PyError (List TextContent) :=
  match connectDatabase env with
  | .error e => .error e
  | .ok _ => .ok (list_tables_result env args.schema args.pattern)

/-- Handler `_get_table_relationships` (lines 415-472). -/
def _get_table_relationships (env : Env) (args : Args) : Except PyError (List TextContent) :=
  match connectDatabase env with
  | .error e => .error e
  | .ok _ =>
    match args.table_name with
    | none => .error (.keyError "table_name")
    | some table_name => .ok (get_table_relationships_result env table_name args.schema)

/-- Handler `_analyze_query_plan` (lines 474-525): connect, read the required
`query` argument (line 478, before the `try` block), then run the body
against the current `PLAN_TABLE` contents. -/
def _analyze_query_plan (env : Env) (args : Args) : Except PyError (List TextContent) :=
  match connectDatabase env with
  | .error e => .error e
  | .ok _ =>
    match args.query with
    | none => .error (.keyError "query")
    | some query => .ok (analyze_query_plan_body env query env.planTable).1

/-- Routing of `handle_call_tool` (lines 168-180): the five known operation
names, with the unknown-name fallback returned (not raised) inside the `try`
block. -/
def dispatchInner (env : Env) (name : String) (arguments : Args) :
    Except PyError (List TextContent) :=
  if name = "execute_sql" then _execute_sql env arguments
  else if name = "describe_table" then _describe_table env arguments
  else if name = "list_tables" then _list_tables env arguments
  else if name = "get_table_relationships" then _get_table_relationships env arguments
  else if name = "analyze_query_plan" then _analyze_query_plan env arguments
  else .ok [⟨"Unknown tool: " ++ name⟩]

/-- Dispatcher `handle_call_tool` (lines 165-184): every exception escaping a
handler is caught at this boundary and converted into an error-bearing
result, so the dispatcher always returns a plain result list. -/
def handle_call_tool (env : Env) (name : String) (arguments : Args) :
    List TextContent :=
  match dispatchInner env name arguments with
  | .ok r => r
  | .error e => [⟨"Error executing " ++ name ++ ": " ++ pyErrStr e⟩]

/-- Helper: Python upper-casing preserves non-emptiness, so a supplied
non-empty schema string stays truthy after `.upper()`. -/
lemma pyUpper_ne_empty (s : String) (h : s ≠ "") : pyUpper s ≠ "" := by
  intro hc
  apply h
  have hd : (pyUpper s).data = [] := by rw [hc]
  have hd2 : s.data.map Char.toUpper = [] := hd
  have h3 : s.data = [] := List.map_eq_nil_iff.mp hd2
  cases s with
  | mk data =>
    cases h3
    rfl

/-- Helper: appending the empty truncation message is the identity. -/
lemma append_empty_str (s : String) : s ++ "" = s := by
  cases s with
  | mk data =>
    show String.mk (data ++ []) = String.mk data
    rw [List.append_nil]

/-- Helper: a list of positive length is not `isEmpty`. -/
lemma isEmpty_false_of_length_pos {α : Type} (l : List α) (h : 0 < l.length) :
    l.isEmpty = false := by
  cases l with
  | nil => exact absurd h (by simp)
  | cons a t => rfl

/-- Helper: no truncation happens at or below the cap. -/
lemma keptRows_of_le (rows : List (List SqlValue)) (m : Nat) (h : rows.length ≤ m) :
    keptRows rows m = rows := by
  unfold keptRows
  rw [if_neg (not_lt.mpr h)]

/-- Helper: above the cap, exactly the first `m` rows are kept. -/
lemma keptRows_of_gt (rows : List (List SqlValue)) (m : Nat) (h : m < rows.length) :
    keptRows rows m = rows.take m := by
  unfold keptRows
  rw [if_pos h]

/-- Helper: no notice at or below the cap. -/
lemma truncatedMsg_of_le (rows : List (List SqlValue)) (m : Nat) (h : rows.length ≤ m) :
    truncatedMsg rows m = "" := by
  unfold truncatedMsg
  rw [if_neg (not_lt.mpr h)]

/-- Helper: above the cap, the notice states the cap value. -/
lemma truncatedMsg_of_gt (rows : List (List SqlValue)) (m : Nat) (h : m < rows.length) :
    truncatedMsg rows m = "\n\n(Results truncated to " ++ toString m ++ " rows)" := by
  unfold truncatedMsg
  rw [if_pos h]

/-- Helper: above the cap, the kept prefix has exactly `m` rows. -/
lemma length_take_of_gt (rows : List (List SqlValue)) (m : Nat) (h : m < rows.length) :
    (rows.take m).length = m := by
  rw [List.length_take]
  exact Nat.min_eq_left (le_of_lt h)

/-- Helper: rendering of a non-empty row set at or below the cap — header
counting all rows, one data line per row, and no truncation notice. -/
lemma renderRead_nonempty_le (cols : List String) (rows : List (List SqlValue)) (m : Nat)
    (he : rows.isEmpty = false) (h : rows.length ≤ m) :
    renderRead cols rows m
      = "Query executed successfully. Found " ++ toString rows.length ++ " rows.\n\n"
        ++ joinSep " | " cols ++ "\n"
        ++ dashLine (pyLen (joinSep " | " cols)) ++ "\n"
        ++ rowsBody rows := by
  unfold renderRead
  rw [keptRows_of_le rows m h, truncatedMsg_of_le rows m h]
  dsimp only
  rw [he]
  simp only [Bool.false_eq_true, if_false]
  rw [append_empty_str]

/-- Helper: rendering of a row set strictly above a positive cap — header
counting the cap, data lines for the first `m` rows only, one notice. -/
lemma renderRead_gt (cols : List String) (rows : List (List SqlValue)) (m : Nat)
    (h0 : 0 < m) (h : m < rows.length) :
    renderRead cols rows m
      = "Query executed successfully. Found " ++ toString m ++ " rows.\n\n"
        ++ joinSep " | " cols ++ "\n"
        ++ dashLine (pyLen (joinSep " | " cols)) ++ "\n"
        ++ rowsBody (rows.take m)
        ++ ("\n\n(Results truncated to " ++ toString m ++ " rows)") := by
  unfold renderRead
  rw [keptRows_of_gt rows m h, truncatedMsg_of_gt rows m h]
  have hlen : (rows.take m).length = m := length_take_of_gt rows m h
  have hne : (rows.take m).isEmpty = false := by
    apply isEmpty_false_of_length_pos
    rw [hlen]
    exact h0
  dsimp only
  rw [hne]
  simp only [Bool.false_eq_true, if_false]
  rw [hlen]

/-- Environment for a plan analysis whose registration step succeeds (two
plan rows registered at timestamp `20240115_103000`) but whose hierarchical
read-back returns no rows. -/
def planOrphanEnv : Env := { planInserted := 2, now := "20240115_103000" }

/-- C1: the claim that a completed `analyze_query_plan` call leaves zero
residual rows in the plan catalog fails on the code: when the plan read-back
returns an empty result the handler returns `"No execution plan generated"`
at line 506 without ever reaching the `DELETE` cleanup at line 517, so both
rows registered under the generated statement identifier remain in
`PLAN_TABLE`. The spec explicitly requires the cleanup on every exit path
once step 1 succeeded, so this is a bug in the code (the `DELETE` is not in
a `finally`-style scope). -/
theorem analyze_query_plan_orphans_plan_rows :
    (analyze_query_plan_body planOrphanEnv "SELECT * FROM orders" []).1
      = [⟨"No execution plan generated"⟩]
    ∧ ((analyze_query_plan_body planOrphanEnv "SELECT * FROM orders" []).2.filter
        (fun r => r.1 == "MCP_PLAN_20240115_103000")).length = 2 := by
  constructor
  · rfl
  · rfl

/-- Environment in which `cursor.execute` raises. -/
def cursorLeakEnv : Env := { execFails := some "ORA-00942: table or view does not exist" }

/-- C3: the claim that the statement handle is released on every exit path
fails on the code: in `_execute_sql` the cursor is opened at line 258 and
closed only at line 307 on the straight-line success path; when execution
raises, the `except` handler at lines 310-312 returns the SQL error text with
the handle still open (first conjunct: one handle remains open). The success
path does close it (second conjunct). The spec states release on every exit
path "to avoid cursor leaks", so the missing `finally` is a code bug; the
same pattern leaks the cursor on the early returns of `_describe_table`
(line 347), `_list_tables` (line 402), `_get_table_relationships` (line 457)
and `_analyze_query_plan` (line 506). -/
theorem execute_sql_cursor_leak_on_error :
    execute_sql_body cursorLeakEnv "SELECT * FROM missing_table" []
      = ("SQL Error: ORA-00942: table or view does not exist", 1)
    ∧ execute_sql_body {} "SELECT 1 FROM DUAL" []
      = ("Query executed successfully. No rows returned.", 0) := by
  constructor
  · rfl
  · rfl

/-- C4: the claim that a `list_tables` request with a pattern builds the base
table-listing SELECT extended with an additional name filter fails on the
code in the no-schema branch: line 393 appends `" AND TABLE_NAME LIKE
:pattern"` to `"SELECT TABLE_NAME FROM USER_TABLES"`, which contains no
`WHERE` keyword, so the built text is not a validly filtered SELECT (Oracle
rejects `FROM USER_TABLES AND ...`), even though the bound value is indeed
the upper-cased pattern wrapped in wildcards and `ORDER BY TABLE_NAME` is
appended (first two conjuncts). The with-schema branch does extend a proper
WHERE clause (third conjunct). -/
theorem list_tables_no_schema_pattern_malformed :
    list_tables_stmt none (some "ord")
      = ("SELECT TABLE_NAME FROM USER_TABLES AND TABLE_NAME LIKE :pattern ORDER BY TABLE_NAME",
         ["%ORD%"])
    ∧ containsSub
        "SELECT TABLE_NAME FROM USER_TABLES AND TABLE_NAME LIKE :pattern ORDER BY TABLE_NAME"
        "WHERE" = false
    ∧ list_tables_stmt (some "sales") (some "ord")
      = ("SELECT TABLE_NAME FROM ALL_TABLES WHERE OWNER = :schema AND TABLE_NAME LIKE :pattern ORDER BY TABLE_NAME",
         ["SALES", "%ORD%"]) := by
  refine ⟨rfl, by decide, rfl⟩

/-- C8: per-value formatting of `execute_sql` output — `None` renders as the
literal `"NULL"`, a datetime renders in the fixed zero-padded
`YYYY-MM-DD HH:MM:SS` format (the sample timestamp 2024-01-15T10:30:00
renders as `"2024-01-15 10:30:00"`), every other value renders as its default
string form, and each rendered data line is exactly the formatted values
joined by the fixed delimiter. -/
theorem formatValue_rendering :
    ∀ (y mo d h mi s : Nat) (v : String) (n : Int) (row : List SqlValue),
      formatValue .null = "NULL"
      ∧ formatValue (.timestamp y mo d h mi s)
          = pad4 y ++ "-" ++ pad2 mo ++ "-" ++ pad2 d ++ " "
            ++ pad2 h ++ ":" ++ pad2 mi ++ ":" ++ pad2 s
      ∧ formatValue (.timestamp 2024 1 15 10 30 0) = "2024-01-15 10:30:00"
      ∧ formatValue (.int n) = toString n
      ∧ formatValue (.str v) = v
      ∧ rowLine row = joinSep " | " (row.map formatValue) ++ "\n" := by
  intro y mo d h mi s v n row
  refine ⟨rfl, rfl, by decide, rfl, rfl, rfl⟩

/-- C9: supplying `schema` as the empty string behaves identically to
omitting it for `describe_table`, `list_tables` and
`get_table_relationships`: the `arguments.get("schema", "")` default plus the
truthiness test select the caller's-own-objects (`USER_...`) branch in both
cases, with the same statement text and the same bound parameters. -/
theorem empty_schema_equals_absent_schema :
    ∀ (t : String) (p : Option String),
      describe_table_stmt t (some "") = describe_table_stmt t none
      ∧ list_tables_stmt (some "") p = list_tables_stmt none p
      ∧ get_table_relationships_stmt t (some "") = get_table_relationships_stmt t none
      ∧ (describe_table_stmt t (some "")).1 = describe_user_query
      ∧ (get_table_relationships_stmt t (some "")).1 = relationships_user_query
      ∧ (list_tables_stmt (some "") none).1
          = "SELECT TABLE_NAME FROM USER_TABLES ORDER BY TABLE_NAME" := by
  intro t p
  refine ⟨rfl, rfl, rfl, rfl, rfl, rfl⟩

/-- C5: the executor classifies a statement as read-producing exactly when
its text, stripped of surrounding whitespace and upper-cased, begins with one
of the fixed read-query keywords `SELECT` (select-style) or `WITH`
(common-table-expression entry); read statements are rendered from the
fetched rows, all other statements take the mutating path and report an
affected-row count; the claim's examples classify as stated. -/
theorem execute_sql_read_classification :
    ∀ (env : Env) (query : String) (ps : List String), env.execFails = none →
      ((pyStartswith (pyUpper (pyStrip query)) "SELECT"
          || pyStartswith (pyUpper (pyStrip query)) "WITH") = true →
        execute_sql_body env query ps
          = (renderRead env.columns env.rows (env.max_results.getD 1000), 0))
      ∧ ((pyStartswith (pyUpper (pyStrip query)) "SELECT"
          || pyStartswith (pyUpper (pyStrip query)) "WITH") = false →
        execute_sql_body env query ps
          = ("Query executed successfully. " ++ toString env.rowcount ++ " rows affected.", 0))
      ∧ isReadQuery "  select 1" = true
      ∧ isReadQuery "WITH x AS (SELECT 1 FROM t) SELECT * FROM x" = true
      ∧ isReadQuery "update t set a=1" = false := by
  intro env query ps hexec
  refine ⟨?_, ?_, by decide, by decide, by decide⟩
  · intro hread
    have h2 : isReadQuery query = true := hread
    unfold execute_sql_body
    rw [hexec]
    dsimp only
    rw [h2]
    simp only [if_true]
  · intro hread
    have h2 : isReadQuery query = false := hread
    unfold execute_sql_body
    rw [hexec]
    dsimp only
    rw [h2]
    simp only [Bool.false_eq_true, if_false]

/-- Witness for C5 at concrete inputs: a read-classified statement renders
the (empty) row set, a mutating statement reports the affected-row count. -/
theorem execute_sql_read_classification_witness :
    execute_sql_body {} "  select 1" []
      = ("Query executed successfully. No rows returned.", 0)
    ∧ execute_sql_body {} "update t set a=1" []
      = ("Query executed successfully. 0 rows affected.", 0) := by
  constructor
  · exact ((execute_sql_read_classification {} "  select 1" [] rfl).1 (by decide)).trans rfl
  · exact ((execute_sql_read_classification {} "update t set a=1" [] rfl).2.1 (by decide)).trans rfl

set_option maxRecDepth 8192 in
/-- C7: schema-scoping of `describe_table` — with no schema the statement
reads the caller's-own-objects view `USER_TAB_COLUMNS` filtered by table name
only; with a (non-empty) schema it reads the all-accessible-objects view
`ALL_TAB_COLUMNS` filtered by table name and owner; table name and schema are
upper-cased before binding; both statements order by `COLUMN_ID`. -/
theorem describe_table_stmt_schema_scoping :
    ∀ (t s : String), s ≠ "" →
      describe_table_stmt t none = (describe_user_query, [pyUpper t])
      ∧ describe_table_stmt t (some s) = (describe_all_query, [pyUpper t, pyUpper s])
      ∧ containsSub describe_user_query "FROM USER_TAB_COLUMNS" = true
      ∧ containsSub describe_user_query "WHERE TABLE_NAME = :table_name" = true
      ∧ containsSub describe_user_query "ORDER BY COLUMN_ID" = true
      ∧ containsSub describe_user_query "OWNER" = false
      ∧ containsSub describe_all_query "FROM ALL_TAB_COLUMNS" = true
      ∧ containsSub describe_all_query "WHERE TABLE_NAME = :table_name AND OWNER = :schema" = true
      ∧ containsSub describe_all_query "ORDER BY COLUMN_ID" = true := by
  intro t s hs
  have hup := pyUpper_ne_empty s hs
  refine ⟨rfl, ?_, by decide, by decide, by decide, by decide, by decide, by decide, by decide⟩
  show (if pyUpper s ≠ "" then (describe_all_query, [pyUpper t, pyUpper s])
        else (describe_user_query, [pyUpper t]))
      = (describe_all_query, [pyUpper t, pyUpper s])
  rw [if_pos hup]

/-- Witness for C7 at the spec's sample arguments `orders` / `sales`. -/
theorem describe_table_stmt_schema_scoping_witness :
    describe_table_stmt "orders" (some "sales") = (describe_all_query, ["ORDERS", "SALES"])
    ∧ describe_table_stmt "orders" none = (describe_user_query, ["ORDERS"]) := by
  constructor
  · exact ((describe_table_stmt_schema_scoping "orders" "sales" (by decide)).2.1).trans rfl
  · exact ((describe_table_stmt_schema_scoping "orders" "sales" (by decide)).1).trans rfl

/-- Helper: every branch of `_describe_table`'s try block yields exactly one
result item. -/
lemma describe_table_result_len (env : Env) (t : String) (s : Option String) :
    (describe_table_result env t s).length = 1 := by
  unfold describe_table_result
  cases env.execFails with
  | some m => rfl
  | none =>
    cases env.describeRows with
    | nil => rfl
    | cons a l => rfl

/-- Helper: every branch of `_list_tables`'s try block yields exactly one
result item. -/
lemma list_tables_result_len (env : Env) (s p : Option String) :
    (list_tables_result env s p).length = 1 := by
  unfold list_tables_result
  cases env.execFails with
  | some m => rfl
  | none =>
    cases env.tables with
    | nil => rfl
    | cons a l => rfl

/-- Helper: every branch of `_get_table_relationships`'s try block yields
exactly one result item. -/
lemma get_table_relationships_result_len (env : Env) (t : String) (s : Option String) :
    (get_table_relationships_result env t s).length = 1 := by
  unfold get_table_relationships_result
  cases env.execFails with
  | some m => rfl
  | none =>
    cases env.relRows with
    | nil => rfl
    | cons a l => rfl

/-- Helper: every branch of `_analyze_query_plan`'s try block yields exactly
one result item. -/
lemma analyze_query_plan_body_len (env : Env) (q : String) (pt : List (String × Nat)) :
    ((analyze_query_plan_body env q pt).1).length = 1 := by
  unfold analyze_query_plan_body
  cases env.explainFails with
  | some m => rfl
  | none =>
    cases env.planReadBack with
    | nil => rfl
    | cons a l => rfl

/-- Helper: the dispatcher always returns a list of exactly one result item,
whatever the environment, operation name and arguments. -/
lemma handle_call_tool_len (env : Env) (name : String) (args : Args) :
    (handle_call_tool env name args).length = 1 := by
  unfold handle_call_tool dispatchInner
  split_ifs
  · unfold _execute_sql connectDatabase
    cases env.connectFails with
    | some m => rfl
    | none =>
      cases args.query with
      | none => rfl
      | some q => rfl
  · unfold _describe_table connectDatabase
    cases env.connectFails with
    | some m => rfl
    | none =>
      cases args.table_name with
      | none => rfl
      | some t => exact describe_table_result_len env t args.schema
  · unfold _list_tables connectDatabase
    cases env.connectFails with
    | some m => rfl
    | none => exact list_tables_result_len env args.schema args.pattern
  · unfold _get_table_relationships connectDatabase
    cases env.connectFails with
    | some m => rfl
    | none =>
      cases args.table_name with
      | none => rfl
      | some t => exact get_table_relationships_result_len env t args.schema
  · unfold _analyze_query_plan connectDatabase
    cases env.connectFails with
    | some m => rfl
    | none =>
      cases args.query with
      | none => rfl
      | some q => exact analyze_query_plan_body_len env q env.planTable
  · rfl

/-- C2: the dispatcher always returns a rendered result and never propagates
an exception: for every environment, operation name and argument bag the
dispatcher returns exactly one result item; an operation name outside the
five known ones yields the unknown-operation message; and a `describe_table`
request missing the required `table_name` argument yields the user-visible
error result produced by catching the handler's `KeyError` at the dispatch
boundary, not an escaping exception. -/
theorem handle_call_tool_never_raises :
    ∀ (env : Env) (name : String) (args : Args),
      (handle_call_tool env name args).length = 1
      ∧ (name ∉ ["execute_sql", "describe_table", "list_tables",
            "get_table_relationships", "analyze_query_plan"] →
          handle_call_tool env name args = [⟨"Unknown tool: " ++ name⟩])
      ∧ (env.connectFails = none → args.table_name = none →
          handle_call_tool env "describe_table" args
            = [⟨"Error executing describe_table: \x27table_name\x27"⟩]) := by
  intro env name args
  refine ⟨handle_call_tool_len env name args, ?_, ?_⟩
  · intro hmem
    simp only [List.mem_cons, List.not_mem_nil, or_false, not_or] at hmem
    obtain ⟨h1, h2, h3, h4, h5⟩ := hmem
    unfold handle_call_tool dispatchInner
    rw [if_neg h1, if_neg h2, if_neg h3, if_neg h4, if_neg h5]
  · intro hc ht
    unfold handle_call_tool dispatchInner _describe_table connectDatabase
    rw [hc, ht]
    rfl

/-- Witness for C2 at concrete inputs: an unknown operation name and a
`describe_table` call with an empty argument bag. -/
theorem handle_call_tool_never_raises_witness :
    handle_call_tool {} "drop_everything" {} = [⟨"Unknown tool: drop_everything"⟩]
    ∧ handle_call_tool {} "describe_table" {}
      = [⟨"Error executing describe_table: \x27table_name\x27"⟩] := by
  constructor
  · exact (handle_call_tool_never_raises {} "drop_everything" {}).2.1 (by decide)
  · exact (handle_call_tool_never_raises {} "describe_table" {}).2.2 rfl rfl

/-- C6 counterexample: with a configured cap of 0, a fetched row set of size
1 exceeds the cap, yet the rendered text is the plain no-rows message with no
truncation notice at all — because line 275 truncates the rows to the empty
list first and the `if rows:` test at line 281 then takes the no-rows branch,
discarding `truncated_msg`. This falsifies the claim that a row set larger
than the cap always renders with exactly one truncation notice. -/
theorem renderRead_zero_cap_no_notice :
    renderRead ["A"] [[SqlValue.str "x"]] 0
      = "Query executed successfully. No rows returned."
    ∧ containsSub "Query executed successfully. No rows returned."
        "(Results truncated" = false := by
  refine ⟨rfl, by decide⟩

/-- C6 (amended): for a fetched row set of size at most the cap the rendered
text carries no truncation notice, and for a *positive* cap exceeded by the
row set exactly the first `max_results` rows are rendered followed by exactly
one truncation notice stating the cap value; when the cap is 0 and is
exceeded, the no-rows message is rendered with no notice (see the
counterexample). -/
theorem renderRead_truncation_notice :
    ∀ (cols : List String) (rows : List (List SqlValue)) (max_results : Nat),
      (rows.length ≤ max_results →
        truncatedMsg rows max_results = ""
        ∧ renderRead cols rows max_results
            = (if rows.isEmpty then "Query executed successfully. No rows returned."
               else "Query executed successfully. Found " ++ toString rows.length
                    ++ " rows.\n\n"
                    ++ joinSep " | " cols ++ "\n"
                    ++ dashLine (pyLen (joinSep " | " cols)) ++ "\n"
                    ++ rowsBody rows))
      ∧ (0 < max_results → max_results < rows.length →
          renderRead cols rows max_results
            = "Query executed successfully. Found " ++ toString max_results
              ++ " rows.\n\n"
              ++ joinSep " | " cols ++ "\n"
              ++ dashLine (pyLen (joinSep " | " cols)) ++ "\n"
              ++ rowsBody (rows.take max_results)
              ++ ("\n\n(Results truncated to " ++ toString max_results ++ " rows)")) := by
  intro cols rows max_results
  constructor
  · intro hle
    refine ⟨truncatedMsg_of_le rows max_results hle, ?_⟩
    by_cases he : rows.isEmpty
    · rw [if_pos he]
      unfold renderRead
      rw [keptRows_of_le rows max_results hle]
      dsimp only
      rw [he]
      rfl
    · rw [if_neg he]
      exact renderRead_nonempty_le cols rows max_results (Bool.not_eq_true _ ▸ he) hle
  · intro h0 hgt
    exact renderRead_gt cols rows max_results h0 hgt

/-- Witness for C6 (amended) at concrete inputs: two rows against cap 1
render one data line plus one notice; one row against cap 1000 renders with
no notice. -/
theorem renderRead_truncation_notice_witness :
    renderRead ["A"] [[SqlValue.str "x"], [SqlValue.str "y"]] 1
      = "Query executed successfully. Found 1 rows.\n\nA\n-\nx\n\n\n(Results truncated to 1 rows)"
    ∧ renderRead ["A"] [[SqlValue.str "x"]] 1000
      = "Query executed successfully. Found 1 rows.\n\nA\n-\nx\n" := by
  constructor
  · exact ((renderRead_truncation_notice ["A"] [[SqlValue.str "x"], [SqlValue.str "y"]] 1).2
      (by decide) (by decide)).trans rfl
  · exact (((renderRead_truncation_notice ["A"] [[SqlValue.str "x"]] 1000).1
      (by decide)).2).trans rfl

/-- C10 counterexample: with a configured cap of 0 exceeded by a two-row
fetch, the rendered read result contains no success header line at all (no
`"Found ... rows"`): the truncation empties the kept rows and the no-rows
message is emitted instead, so the claim that the header then reports the
capped count fails at this input. -/
theorem renderRead_zero_cap_no_header :
    renderRead ["A"] [[SqlValue.str "a"], [SqlValue.str "b"]] 0
      = "Query executed successfully. No rows returned."
    ∧ containsSub "Query executed successfully. No rows returned." "Found" = false := by
  refine ⟨rfl, by decide⟩

/-- C10 (amended): for a *positive* cap exceeded by the fetched row count,
the success header reports the number of kept rows — which equals the cap —
and the data block renders exactly those kept rows, so the header count
equals the number of rendered data rows; likewise below the cap the header
counts exactly the rows rendered. When the cap is 0 and exceeded, no header
is rendered at all (see the counterexample). -/
theorem renderRead_header_counts_rendered_rows :
    ∀ (cols : List String) (rows : List (List SqlValue)) (max_results : Nat),
      (0 < max_results → max_results < rows.length →
        (rows.take max_results).length = max_results
        ∧ renderRead cols rows max_results
            = "Query executed successfully. Found "
              ++ toString (rows.take max_results).length ++ " rows.\n\n"
              ++ joinSep " | " cols ++ "\n"
              ++ dashLine (pyLen (joinSep " | " cols)) ++ "\n"
              ++ rowsBody (rows.take max_results)
              ++ truncatedMsg rows max_results)
      ∧ (rows.isEmpty = false → rows.length ≤ max_results →
          renderRead cols rows max_results
            = "Query executed successfully. Found " ++ toString rows.length
              ++ " rows.\n\n"
              ++ joinSep " | " cols ++ "\n"
              ++ dashLine (pyLen (joinSep " | " cols)) ++ "\n"
              ++ rowsBody rows) := by
  intro cols rows max_results
  constructor
  · intro h0 hgt
    have hlen := length_take_of_gt rows max_results hgt
    refine ⟨hlen, ?_⟩
    rw [renderRead_gt cols rows max_results h0 hgt,
        truncatedMsg_of_gt rows max_results hgt, hlen]
  · intro he hle
    exact renderRead_nonempty_le cols rows max_results he hle

/-- Witness for C10 (amended) at concrete inputs: three rows against cap 2
render a header counting 2 and two data lines; two rows against cap 1000
render a header counting 2 and two data lines. -/
theorem renderRead_header_counts_rendered_rows_witness :
    renderRead ["C"] [[SqlValue.str "a"], [SqlValue.str "b"], [SqlValue.str "c"]] 2
      = "Query executed successfully. Found 2 rows.\n\nC\n-\na\nb\n\n\n(Results truncated to 2 rows)"
    ∧ renderRead ["C"] [[SqlValue.str "a"], [SqlValue.str "b"]] 1000
      = "Query executed successfully. Found 2 rows.\n\nC\n-\na\nb\n" := by
  constructor
  · exact (((renderRead_header_counts_rendered_rows ["C"]
      [[SqlValue.str "a"], [SqlValue.str "b"], [SqlValue.str "c"]] 2).1
      (by decide) (by decide)).2).trans rfl
  · exact ((renderRead_header_counts_rendered_rows ["C"]
      [[SqlValue.str "a"], [SqlValue.str "b"]] 1000).2 (by decide) (by decide)).trans rfl
